import Mathlib

/-!
Verification of the ray-tracer core declared in
src/common/src/main/datastructures.hpp (namespace ww).

The repository ships the header only: struct layouts, default member
values, inline bodies (such as world::Count) and doc comments are taken
from the header; function bodies that the header only declares are
modelled from the accompanying specification and are marked as such in
their doc comments.

Floats are idealized as real numbers, the usual shallow embedding for
single-precision geometry code; the fixed tolerance EPSILON is the
constant from the header.
-/

noncomputable section

set_option genSizeOf false
set_option genSizeOfSpec false
set_option genInjectivity false

namespace ww

/-- Fixed tolerance from the header, line 35: constexpr float EPSILON = 0.0035000. -/
def EPSILON : ℝ := 0.0035

/-- Modelled from the spec: the body of bool Equal(float, float) is not under
src (declaration only, header line 294); the spec, section 4.1, says scalar
comparison is within the fixed epsilon. -/
def Equal (A B : ℝ) : Prop := |A - B| < EPSILON

set_option genInjectivity true in
/-- The union tup of the header, lines 40 to 71: four floats X, Y, Z, W.
Under the color view the same slots are read as R, G, B, I. -/
@[ext]
structure tup where
  X : ℝ
  Y : ℝ
  Z : ℝ
  W : ℝ


/-- Modelled from the spec: body of tup Point(float, float, float) is not under
src; a point carries W = 1 (data model, section 3). -/
def Point (A B C : ℝ) : tup := ⟨A, B, C, 1⟩

/-- Modelled from the spec: body of tup Vector(float, float, float) is not
under src; a vector carries W = 0 (data model, section 3). -/
def Vector (A B C : ℝ) : tup := ⟨A, B, C, 0⟩

/-- Modelled from the spec: body of tup Color(float, float, float) is not under
src; a color reuses the four-slot layout with the intensity slot left zero,
matching the three-argument tup constructor of the header (line 44). -/
def Color (R G B : ℝ) : tup := ⟨R, G, B, 0⟩

/-- Modelled from the spec: body of tup Add(tup, tup) is not under src;
componentwise addition (section 4.1). -/
def Add (A B : tup) : tup := ⟨A.X + B.X, A.Y + B.Y, A.Z + B.Z, A.W + B.W⟩

/-- Modelled from the spec: body of tup Sub(tup, tup) is not under src;
componentwise subtraction (section 4.1). -/
def Sub (A B : tup) : tup := ⟨A.X - B.X, A.Y - B.Y, A.Z - B.Z, A.W - B.W⟩

/-- Modelled from the spec: body of tup Negate(tup) is not under src;
componentwise negation (section 4.1). -/
def Negate (A : tup) : tup := ⟨-A.X, -A.Y, -A.Z, -A.W⟩

/-- Modelled from the spec: body of tup Mul(float, tup) is not under src;
scalar multiplication (section 4.1). -/
def MulS (S : ℝ) (A : tup) : tup := ⟨S * A.X, S * A.Y, S * A.Z, S * A.W⟩

/-- Modelled from the spec: body of tup Mul(tup, tup) is not under src; the
Hadamard (elementwise) product (section 4.1 and header note, line 304). -/
def MulT (A B : tup) : tup := ⟨A.X * B.X, A.Y * B.Y, A.Z * B.Z, A.W * B.W⟩

/-- Modelled from the spec: body of float Dot(tup, tup) is not under src; the
four-component dot product (section 4.1). -/
def Dot (A B : tup) : ℝ := A.X * B.X + A.Y * B.Y + A.Z * B.Z + A.W * B.W

/-- Modelled from the spec: body of tup Cross(tup, tup) is not under src; the
three-dimensional cross product, a vector result (section 4.1). -/
def Cross (A B : tup) : tup :=
  Vector (A.Y * B.Z - A.Z * B.Y) (A.Z * B.X - A.X * B.Z) (A.X * B.Y - A.Y * B.X)

/-- Modelled from the spec: body of float MagSquared(tup) is not under src;
the squared magnitude (section 4.1). -/
def MagSquared (A : tup) : ℝ := Dot A A

/-- Modelled from the spec: body of float Mag(tup) is not under src; the
square root of the squared magnitude (section 4.1). -/
def Mag (A : tup) : ℝ := Real.sqrt (MagSquared A)

/-- Modelled from the spec: body of tup Normalize(tup) is not under src; the
spec, section 4.1, says Normalize divides by Mag with no guard of its own,
leaving a zero-length input to the caller. -/
def Normalize (A : tup) : tup :=
  ⟨A.X / Mag A, A.Y / Mag A, A.Z / Mag A, A.W / Mag A⟩

/-- Modelled from the spec: body of tup Reflect(tup, tup) is not under src;
Reflect(in, normal) = in - 2 * Dot(in, normal) * normal (section 4.1). -/
def Reflect (vIn vNormal : tup) : tup := Sub vIn (MulS (2 * Dot vIn vNormal) vNormal)

/-- Modelled from the spec: body of bool Equal(tup, tup) is not under src;
elementwise comparison within the fixed epsilon (section 4.1). -/
def EqualT (A B : tup) : Prop :=
  Equal A.X B.X ∧ Equal A.Y B.Y ∧ Equal A.Z B.Z ∧ Equal A.W B.W

set_option genInjectivity true in
/-- The union matrix of the header, lines 82 to 113: four tup rows. As in
the union, one type serves every dimension: a matrix of Dimension 3 or 2
occupies the upper-left corner and the unused tail slots stay zero. The
cached is_invertible_return memo is omitted because the spec (data model,
section 3) says it is never a source of truth. -/
@[ext]
structure matrix where
  R0 : tup
  R1 : tup
  R2 : tup
  R3 : tup

/-- Header line 83: the default matrix constructor zero-initializes every
row, so Matrix44() is the all-zero 4x4 matrix — the sentinel the Inverse
doc comment (header lines 345 to 350) calls the Zero matrix. -/
def Matrix44 : matrix := ⟨⟨0, 0, 0, 0⟩, ⟨0, 0, 0, 0⟩, ⟨0, 0, 0, 0⟩, ⟨0, 0, 0, 0⟩⟩

/-- Header lines 352 to 356: I() returns the 4x4 identity matrix. -/
def I : matrix :=
  ⟨⟨1, 0, 0, 0⟩, ⟨0, 1, 0, 0⟩, ⟨0, 0, 1, 0⟩, ⟨0, 0, 0, 1⟩⟩

/-- One row of a matrix product: the dot of a row with each column. -/
def MulRow (R : tup) (B : matrix) : tup :=
  ⟨R.X * B.R0.X + R.Y * B.R1.X + R.Z * B.R2.X + R.W * B.R3.X,
   R.X * B.R0.Y + R.Y * B.R1.Y + R.Z * B.R2.Y + R.W * B.R3.Y,
   R.X * B.R0.Z + R.Y * B.R1.Z + R.Z * B.R2.Z + R.W * B.R3.Z,
   R.X * B.R0.W + R.Y * B.R1.W + R.Z * B.R2.W + R.W * B.R3.W⟩

/-- Modelled from the spec: body of matrix Mul(matrix, matrix) is not under
src; standard row-by-column product (section 4.2). -/
def MulM (A B : matrix) : matrix :=
  ⟨MulRow A.R0 B, MulRow A.R1 B, MulRow A.R2 B, MulRow A.R3 B⟩

/-- Modelled from the spec: body of tup Mul(matrix, tup) is not under src;
the matrix-vector product, each component a row dotted with the tuple
(section 4.2). -/
def MulMT (A : matrix) (T : tup) : tup :=
  ⟨Dot A.R0 T, Dot A.R1 T, Dot A.R2 T, Dot A.R3 T⟩

/-- Modelled from the spec: body of matrix Transpose(matrix) is not under
src; rows and columns exchanged (section 4.2). -/
def Transpose (M : matrix) : matrix :=
  ⟨⟨M.R0.X, M.R1.X, M.R2.X, M.R3.X⟩,
   ⟨M.R0.Y, M.R1.Y, M.R2.Y, M.R3.Y⟩,
   ⟨M.R0.Z, M.R1.Z, M.R2.Z, M.R3.Z⟩,
   ⟨M.R0.W, M.R1.W, M.R2.W, M.R3.W⟩⟩

/-- Delete slot C of a four-slot row; the three kept slots shift left and
the tail slot is left zero, as in the union matrix where a smaller Dimension
leaves the tail of each row unused. -/
def tupDrop (T : tup) (C : ℕ) : tup :=
  if C = 0 then ⟨T.Y, T.Z, T.W, 0⟩
  else if C = 1 then ⟨T.X, T.Z, T.W, 0⟩
  else if C = 2 then ⟨T.X, T.Y, T.W, 0⟩
  else ⟨T.X, T.Y, T.Z, 0⟩

/-- Delete slot C among the first three slots of a row (the occupied slots
at Dimension 3); the two kept slots shift left. -/
def tup3Drop (T : tup) (C : ℕ) : tup :=
  if C = 0 then ⟨T.Y, T.Z, 0, 0⟩
  else if C = 1 then ⟨T.X, T.Z, 0, 0⟩
  else ⟨T.X, T.Y, 0, 0⟩

/-- Modelled from the spec: body of matrix SubMatrix(matrix, int, int) is not
under src; the submatrix of a 4x4 matrix with RemoveRow and RemoveCol deleted
(section 4.2), occupying the upper-left 3x3 corner of the union type. -/
def SubMatrix (M : matrix) (RemoveRow RemoveCol : ℕ) : matrix :=
  if RemoveRow = 0 then
    ⟨tupDrop M.R1 RemoveCol, tupDrop M.R2 RemoveCol, tupDrop M.R3 RemoveCol, ⟨0, 0, 0, 0⟩⟩
  else if RemoveRow = 1 then
    ⟨tupDrop M.R0 RemoveCol, tupDrop M.R2 RemoveCol, tupDrop M.R3 RemoveCol, ⟨0, 0, 0, 0⟩⟩
  else if RemoveRow = 2 then
    ⟨tupDrop M.R0 RemoveCol, tupDrop M.R1 RemoveCol, tupDrop M.R3 RemoveCol, ⟨0, 0, 0, 0⟩⟩
  else
    ⟨tupDrop M.R0 RemoveCol, tupDrop M.R1 RemoveCol, tupDrop M.R2 RemoveCol, ⟨0, 0, 0, 0⟩⟩

/-- The 3x3 instance of SubMatrix (in the header the same union function
serves all dimensions): delete one of the first three rows and one of the
first three columns, leaving a 2x2 corner. -/
def SubMatrix33 (M : matrix) (RemoveRow RemoveCol : ℕ) : matrix :=
  if RemoveRow = 0 then ⟨tup3Drop M.R1 RemoveCol, tup3Drop M.R2 RemoveCol, ⟨0, 0, 0, 0⟩, ⟨0, 0, 0, 0⟩⟩
  else if RemoveRow = 1 then ⟨tup3Drop M.R0 RemoveCol, tup3Drop M.R2 RemoveCol, ⟨0, 0, 0, 0⟩, ⟨0, 0, 0, 0⟩⟩
  else ⟨tup3Drop M.R0 RemoveCol, tup3Drop M.R1 RemoveCol, ⟨0, 0, 0, 0⟩, ⟨0, 0, 0, 0⟩⟩

/-- Modelled from the spec: body of float Determinant22(matrix) is not under
src; the 2x2 determinant ad minus bc, read off the upper-left corner
(section 4.2). -/
def Determinant22 (M : matrix) : ℝ := M.R0.X * M.R1.Y - M.R0.Y * M.R1.X

/-- Modelled from the spec: the Minor at dimension 3 is the determinant of
the 2x2 submatrix with the given row and column deleted (section 4.2; the
header declares one Minor over the union type, line 371). -/
def Minor33 (M : matrix) (RemoveRow RemoveCol : ℕ) : ℝ :=
  Determinant22 (SubMatrix33 M RemoveRow RemoveCol)

/-- Modelled from the spec: body of float Cofactor33(matrix, int, int) is not
under src; the minor with sign (-1) to the power row plus column
(section 4.2). -/
def Cofactor33 (M : matrix) (RemoveRow RemoveCol : ℕ) : ℝ :=
  (-1 : ℝ) ^ (RemoveRow + RemoveCol) * Minor33 M RemoveRow RemoveCol

/-- Modelled from the spec: body of float Determinant33(matrix) is not under
src; cofactor expansion along the first row of the upper-left 3x3 corner
(section 4.2). -/
def Determinant33 (M : matrix) : ℝ :=
  M.R0.X * Cofactor33 M 0 0 + M.R0.Y * Cofactor33 M 0 1 + M.R0.Z * Cofactor33 M 0 2

/-- Modelled from the spec: the Minor at dimension 4 is the determinant of
the 3x3 submatrix with the given row and column deleted (section 4.2). -/
def Minor44 (M : matrix) (RemoveRow RemoveCol : ℕ) : ℝ :=
  Determinant33 (SubMatrix M RemoveRow RemoveCol)

/-- Modelled from the spec: body of float Cofactor44(matrix, int, int) is not
under src; the minor with sign (-1) to the power row plus column
(section 4.2). -/
def Cofactor44 (M : matrix) (RemoveRow RemoveCol : ℕ) : ℝ :=
  (-1 : ℝ) ^ (RemoveRow + RemoveCol) * Minor44 M RemoveRow RemoveCol

/-- Modelled from the spec: body of float Determinant44(matrix) is not under
src; cofactor expansion along the first row (section 4.2). -/
def Determinant44 (M : matrix) : ℝ :=
  M.R0.X * Cofactor44 M 0 0 + M.R0.Y * Cofactor44 M 0 1 +
    M.R0.Z * Cofactor44 M 0 2 + M.R0.W * Cofactor44 M 0 3

/-- The struct is_invertible_return of the header, lines 74 to 79. The
IsInvertible flag is a proposition here because real comparison is not
mechanically decidable; IsComputed is true once the determinant is filled
in. -/
structure is_invertible_return where
  IsInvertible : Prop
  IsComputed : Bool
  Determinant : ℝ

/-- Modelled from the spec: body of IsInvertible(matrix) is not under src;
a matrix is invertible exactly when its determinant is not within epsilon of
zero (section 4.2: valid only when the absolute determinant exceeds
epsilon). -/
def IsInvertible (M : matrix) : is_invertible_return :=
  ⟨¬ Equal (Determinant44 M) 0, true, Determinant44 M⟩

open Classical in
/-- Modelled from the spec: body of matrix Inverse(matrix) is not under src.
Per spec section 4.2 the inverse is the transpose of the cofactor matrix
divided by the determinant; per the header doc comment (lines 345 to 350)
and spec section 9, when the determinant is within epsilon of zero the
all-zero matrix is returned with no further signal. -/
def Inverse (M : matrix) : matrix :=
  if Equal (Determinant44 M) 0 then Matrix44
  else
    ⟨⟨Cofactor44 M 0 0 / Determinant44 M, Cofactor44 M 1 0 / Determinant44 M,
      Cofactor44 M 2 0 / Determinant44 M, Cofactor44 M 3 0 / Determinant44 M⟩,
     ⟨Cofactor44 M 0 1 / Determinant44 M, Cofactor44 M 1 1 / Determinant44 M,
      Cofactor44 M 2 1 / Determinant44 M, Cofactor44 M 3 1 / Determinant44 M⟩,
     ⟨Cofactor44 M 0 2 / Determinant44 M, Cofactor44 M 1 2 / Determinant44 M,
      Cofactor44 M 2 2 / Determinant44 M, Cofactor44 M 3 2 / Determinant44 M⟩,
     ⟨Cofactor44 M 0 3 / Determinant44 M, Cofactor44 M 1 3 / Determinant44 M,
      Cofactor44 M 2 3 / Determinant44 M, Cofactor44 M 3 3 / Determinant44 M⟩⟩

/-- Modelled from the spec: body of bool Equal(matrix, matrix) is not under
src; rowwise tuple comparison within the fixed epsilon (section 4.2). -/
def EqualM (A B : matrix) : Prop :=
  EqualT A.R0 B.R0 ∧ EqualT A.R1 B.R1 ∧ EqualT A.R2 B.R2 ∧ EqualT A.R3 B.R3

/-- Modelled from the spec: body of matrix Translation(float, float, float)
is not under src; the identity with the translation in the fourth column
(section 4.2). -/
def Translation (X Y Z : ℝ) : matrix :=
  ⟨⟨1, 0, 0, X⟩, ⟨0, 1, 0, Y⟩, ⟨0, 0, 1, Z⟩, ⟨0, 0, 0, 1⟩⟩

/-- Modelled from the spec: body of matrix Scaling(float, float, float) is
not under src; the diagonal scale matrix (section 4.2). -/
def Scaling (X Y Z : ℝ) : matrix :=
  ⟨⟨X, 0, 0, 0⟩, ⟨0, Y, 0, 0⟩, ⟨0, 0, Z, 0⟩, ⟨0, 0, 0, 1⟩⟩

/-- Modelled from the spec: body of matrix ViewTransform(tup, tup, tup) is
not under src; section 4.2: forward is the normalized difference of from and
to, left the normalized cross of the normalized up with forward, trueUp the
cross of forward and left; the orientation rows are left, trueUp, forward and
the unit fourth row, composed with the translation to the origin. -/
def ViewTransform (From To Up : tup) : matrix :=
  let Forward := Normalize (Sub From To)
  let Left := Normalize (Cross (Normalize Up) Forward)
  let TrueUp := Cross Forward Left
  let Orientation : matrix :=
    ⟨⟨Left.X, Left.Y, Left.Z, 0⟩,
     ⟨TrueUp.X, TrueUp.Y, TrueUp.Z, 0⟩,
     ⟨Forward.X, Forward.Y, Forward.Z, 0⟩,
     ⟨0, 0, 0, 1⟩⟩
  MulM Orientation (Translation (-From.X) (-From.Y) (-From.Z))

/-- The struct material of the header, lines 116 to 123, with its default
member values: Ambient 0.1, Diffuse 0.9, Specular 0.9, Shininess 200 and
base color tup{1, 1, 1, 0}. -/
structure material where
  Ambient : ℝ := 0.1
  Diffuse : ℝ := 0.9
  Specular : ℝ := 0.9
  Shininess : ℝ := 200
  Color : tup := ⟨1, 1, 1, 0⟩

/-- The struct sphere of the header, lines 128 to 158: the object base
carries a zero-initialized Center, a default material and the identity
transform; sphere adds Radius 1. Per spec section 4.3 the sphere is a unit
sphere in local space, all positioning expressed through the transform. -/
structure sphere where
  Center : tup := ⟨0, 0, 0, 0⟩
  Material : material := {}
  Transform : matrix := I
  Radius : ℝ := 1

/-- Modelled from the spec: body of PtrDefaultSphere() is not under src
(declaration, header line 401); it creates a default sphere. -/
def PtrDefaultSphere : sphere := {}

/-- The struct ray of the header, lines 195 to 199: an origin point and a
direction vector (the header defaults them to the origin and the unit x
vector; every construction here supplies both). -/
structure ray where
  Origin : tup
  Direction : tup

/-- Modelled from the spec: body of ray Ray(tup, tup) is not under src; it
packs origin and direction (data model, section 3). -/
def Ray (P V : tup) : ray := ⟨P, V⟩

/-- Modelled from the spec: body of tup PositionAt(ray, float) is not under
src; the point at parameter t is origin plus t times direction
(section 4.5). -/
def PositionAt (R : ray) (t : ℝ) : tup := Add R.Origin (MulS t R.Direction)

/-- Modelled from the spec: body of ray Transform(ray, matrix) is not under
src; both origin and direction are taken through the matrix
(section 4.4, step 1). -/
def Transform (R : ray) (M : matrix) : ray := ⟨MulMT M R.Origin, MulMT M R.Direction⟩

set_option genInjectivity true in
/-- The struct intersection of the header, lines 176 to 180: the parameter t
along the ray together with the shape hit (the shared pointer becomes a
plain sphere value). -/
structure intersection where
  t : ℝ
  pObject : sphere

/-- Modelled from the spec: body of Intersection(float, shared_ptr_object)
is not under src; it packs t with the shape (header line 411). -/
def Intersection (t : ℝ) (pObject : sphere) : intersection := ⟨t, pObject⟩

/-- Modelled from the spec: body of Intersect(shared_ptr_object, ray) is not
under src. Section 4.4: transform the ray into local space by the inverse
transform, solve the unit-sphere quadratic; a negative discriminant yields no
intersections, otherwise the two roots in nondecreasing order, each tagged
with the owning shape, even when negative or equal. -/
def Intersect (S : sphere) (R : ray) : List intersection :=
  let LocalRay := Transform R (Inverse S.Transform)
  let SphereToRay := Sub LocalRay.Origin (Point 0 0 0)
  let A := Dot LocalRay.Direction LocalRay.Direction
  let B := 2 * Dot LocalRay.Direction SphereToRay
  let C := Dot SphereToRay SphereToRay - 1
  let Discriminant := B ^ 2 - 4 * A * C
  if Discriminant < 0 then []
  else
    [⟨(-B - Real.sqrt Discriminant) / (2 * A), S⟩,
     ⟨(-B + Real.sqrt Discriminant) / (2 * A), S⟩]

/-- One step of the linear scan behind Hit: keep the best candidate so far,
replace it when the next intersection has a nonnegative t strictly below the
best t seen. -/
def HitStep (Acc : Option intersection) (J : intersection) : Option intersection :=
  if 0 ≤ J.t then
    match Acc with
    | none => some J
    | some B => if J.t < B.t then some J else Acc
  else Acc

/-- Modelled from the spec: body of Hit(intersections) is not under src.
Section 4.4: a linear scan selecting the intersection with the smallest
nonnegative t, ties broken by first occurrence; none is the distinguished
no-hit result when the collection is empty or every t is negative. -/
def Hit (Intersections : List intersection) : Option intersection :=
  Intersections.foldl HitStep none

/-- The struct light of the header, lines 218 to 222: an intensity color and
a position, both zero-initialized in the header. -/
structure light where
  Intensity : tup
  Position : tup

/-- Modelled from the spec: body of PointLight(tup, tup) is not under src;
it packs position and intensity (header line 428). -/
def PointLight (Position Intensity : tup) : light := ⟨Intensity, Position⟩

/-- Modelled from the spec: body of Lighting(material, light, tup, tup, tup,
bool) is not under src. Section 4.5 Phong: the ambient term alone in shadow;
diffuse and specular black when the light is behind the surface; specular
black when the reflection points away from the eye; otherwise the sum of
ambient, diffuse and specular. -/
def Lighting (Material : material) (Light : light) (Position vEye vNormal : tup)
    (InShadow : Bool) : tup :=
  let EffectiveColor := MulT Material.Color Light.Intensity
  let Ambient := MulS Material.Ambient EffectiveColor
  if InShadow then Ambient
  else
    let vLight := Normalize (Sub Light.Position Position)
    let LightDotNormal := Dot vLight vNormal
    if LightDotNormal < 0 then Ambient
    else
      let Diffuse := MulS (Material.Diffuse * LightDotNormal) EffectiveColor
      let vReflect := Reflect (Negate vLight) vNormal
      let ReflectDotEye := Dot vReflect vEye
      if ReflectDotEye ≤ 0 then Add Ambient Diffuse
      else
        let Specular :=
          MulS (Material.Specular * Real.rpow ReflectDotEye Material.Shininess) Light.Intensity
        Add (Add Ambient Diffuse) Specular

/-- The struct world of the header, lines 231 to 236: a vector of shapes and
a vector of lights. -/
structure world where
  vPtrObjects : List sphere
  vPtrLights : List light

/-- Header line 235, inline body: Count returns the size of the object
vector only (the int cast becomes the natural length). -/
def world.Count (W : world) : ℕ := W.vPtrObjects.length

/-- Modelled from the spec: body of WorldAddObject(world, shared_ptr_object)
is not under src (declaration, header line 443); it appends the object to
the object vector. -/
def WorldAddObject (W : world) (pObject : sphere) : world :=
  { W with vPtrObjects := W.vPtrObjects ++ [pObject] }

/-- Modelled from the spec: body of WorldAddLight(world, shared_ptr_light)
is not under src (declaration, header line 444); it appends the light to the
light vector. -/
def WorldAddLight (W : world) (pLight : light) : world :=
  { W with vPtrLights := W.vPtrLights ++ [pLight] }

/-- Modelled from the spec: body of World() is not under src (declaration,
header line 441); the spec says it creates a default world with two spheres
and a light, whose parameters follow the reference ray-tracer construction:
an outer sphere with color (0.8, 1, 0.6), diffuse 0.7 and specular 0.2, an
inner sphere scaled by one half, and a white point light at
(-10, 10, -10). -/
def World : world :=
  { vPtrObjects :=
      [{ Material := { Color := ⟨0.8, 1, 0.6, 0⟩, Diffuse := 0.7, Specular := 0.2 } },
       { Transform := Scaling 0.5 0.5 0.5 }],
    vPtrLights := [PointLight (Point (-10) 10 (-10)) (Color 1 1 1)] }

/-- Modelled from the spec: body of IntersectWorld(world, ray) is not under
src; section 4.4: the concatenation of the Intersect results over every
shape, in world insertion order, with no sorting. -/
def IntersectWorld (W : world) (R : ray) : List intersection :=
  W.vPtrObjects.foldr (fun S Acc => Intersect S R ++ Acc) []

/-- Modelled from the spec: body of NormalAt(object, tup) is not under src.
Section 4.5: take the point to local space by the inverse transform, use the
local sphere normal (local point minus origin), return through the transpose
of the inverse, zero the w slot, normalize. -/
def NormalAt (O : sphere) (P : tup) : tup :=
  let LocalPoint := MulMT (Inverse O.Transform) P
  let LocalNormal := Sub LocalPoint (Point 0 0 0)
  let WorldNormal := MulMT (Transpose (Inverse O.Transform)) LocalNormal
  Normalize ⟨WorldNormal.X, WorldNormal.Y, WorldNormal.Z, 0⟩

/-- The struct prepare_computation of the header, lines 244 to 253. -/
structure prepare_computation where
  t : ℝ
  Inside : Bool
  pObject : sphere
  Point : tup
  Normal : tup
  Eye : tup

/-- Modelled from the spec: body of PrepareComputations(intersection, ray)
is not under src. Section 4.5: the hit point along the ray, the eye vector
opposite the ray direction, the surface normal, negated with the inside flag
set when it faces away from the eye. -/
def PrepareComputations (J : intersection) (R : ray) : prepare_computation :=
  let P := PositionAt R J.t
  let vEye := Negate R.Direction
  let vNormal := NormalAt J.pObject P
  if Dot vNormal vEye < 0 then ⟨J.t, true, J.pObject, P, Negate vNormal, vEye⟩
  else ⟨J.t, false, J.pObject, P, vNormal, vEye⟩

/-- Modelled from the spec: body of IsShadowed(world, tup) is not under src.
Section 4.5: some light of the world is blocked, that is the ray from the
point toward the light meets the world at a hit with t strictly between zero
and the distance to the light. -/
def IsShadowed (W : world) (P : tup) : Prop :=
  ∃ L ∈ W.vPtrLights, ∃ H,
    Hit (IntersectWorld W (Ray P (Normalize (Sub L.Position P)))) = some H ∧
      0 < H.t ∧ H.t < Mag (Sub L.Position P)

open Classical in
/-- Modelled from the spec: body of ShadeHit(world, prepare_computation) is
not under src. Section 4.5: Lighting accumulated over every light of the
world, the shadow flag supplied by IsShadowed. -/
def ShadeHit (W : world) (Comps : prepare_computation) : tup :=
  W.vPtrLights.foldl
    (fun Acc L =>
      Add Acc
        (Lighting Comps.pObject.Material L Comps.Point Comps.Eye Comps.Normal
          (if IsShadowed W Comps.Point then true else false)))
    (Color 0 0 0)

/-- Modelled from the spec: body of ColorAt(world, ray) is not under src.
Section 4.5: intersect the world, take the hit; black when there is none,
otherwise prepare computations and shade. -/
def ColorAt (W : world) (R : ray) : tup :=
  match Hit (IntersectWorld W R) with
  | none => Color 0 0 0
  | some J => ShadeHit W (PrepareComputations J R)

/-- The struct camera of the header, lines 258 to 274 (the header defaults
the pixel counts to 160 by 120, the scalars to zero and the transform to the
identity; the Camera constructor below fills every field). -/
structure camera where
  HSize : ℕ
  VSize : ℕ
  FieldOfView : ℝ
  PixelSize : ℝ
  HalfWidth : ℝ
  HalfHeight : ℝ
  Transform : matrix

/-- Modelled from the spec: body of Camera(int, int, float) is not under
src. Section 4.6: halfView is the tangent of half the field of view taken in
radians (the data model, section 3, fixes radians; the header comment at
line 475 says degrees, a stale comment the spec overrides), aspect the ratio
of the pixel counts, half width and half height split on aspect at least
one, and the pixel size is the full width over the horizontal count. -/
def Camera (HSize VSize : ℕ) (FieldOfView : ℝ) : camera :=
  let HalfView := Real.tan (FieldOfView / 2)
  let Aspect := (HSize : ℝ) / (VSize : ℝ)
  let HalfWidth := if 1 ≤ Aspect then HalfView else HalfView * Aspect
  let HalfHeight := if 1 ≤ Aspect then HalfView / Aspect else HalfView
  { HSize := HSize, VSize := VSize, FieldOfView := FieldOfView,
    PixelSize := HalfWidth * 2 / (HSize : ℝ), HalfWidth := HalfWidth,
    HalfHeight := HalfHeight, Transform := I }

/-- Modelled from the spec: body of RayForPixel(camera, int, int) is not
under src. Section 4.6: offsets at the pixel center, world coordinates from
the half extents, pixel and origin taken through the inverse camera
transform, direction normalized. -/
def RayForPixel (C : camera) (Px Py : ℕ) : ray :=
  let XOffset := ((Px : ℝ) + 0.5) * C.PixelSize
  let YOffset := ((Py : ℝ) + 0.5) * C.PixelSize
  let WorldX := C.HalfWidth - XOffset
  let WorldY := C.HalfHeight - YOffset
  let Pixel := MulMT (Inverse C.Transform) (Point WorldX WorldY (-1))
  let Origin := MulMT (Inverse C.Transform) (Point 0 0 0)
  Ray Origin (Normalize (Sub Pixel Origin))

/-- The struct canvas of the header, lines 202 to 215: width, height and the
pixel buffer of W times H cells (the header defaults to a 10 by 10 canvas;
Render fills every field). -/
structure canvas where
  W : ℕ
  H : ℕ
  vXY : List tup

/-- Modelled from the spec: body of PixelAt(canvas, int, int) is not under
src; the buffer is read row major, cell X plus Y times the width. -/
def PixelAt (Canvas : canvas) (X Y : ℕ) : tup :=
  Canvas.vXY.getD (X + Y * Canvas.W) ⟨0, 0, 0, 0⟩

/-- Modelled from the spec: body of Render(camera, world) is not under src.
Section 4.6: for every pixel of the hsize by vsize grid compute the ray and
write ColorAt of the world and that ray into the corresponding cell of the
output buffer; cell k of the row-major buffer holds pixel
(k mod hsize, k div hsize). -/
def Render (Camera : camera) (World : world) : canvas :=
  { W := Camera.HSize, H := Camera.VSize,
    vXY :=
      (List.range (Camera.VSize * Camera.HSize)).map
        (fun K => ColorAt World (RayForPixel Camera (K % Camera.HSize) (K / Camera.HSize))) }

/-- The quadratic coefficient a of the ray-sphere intersection, the
direction of the local ray dotted with itself (spec section 4.4, step 2). -/
def QuadraticA (S : sphere) (R : ray) : ℝ :=
  Dot (Transform R (Inverse S.Transform)).Direction (Transform R (Inverse S.Transform)).Direction

/-- The quadratic coefficient b, twice the local direction dotted with the
vector from the sphere center to the local origin (spec section 4.4). -/
def QuadraticB (S : sphere) (R : ray) : ℝ :=
  2 * Dot (Transform R (Inverse S.Transform)).Direction
      (Sub (Transform R (Inverse S.Transform)).Origin (Point 0 0 0))

/-- The quadratic coefficient c, the center-to-origin vector dotted with
itself minus one (spec section 4.4). -/
def QuadraticC (S : sphere) (R : ray) : ℝ :=
  Dot (Sub (Transform R (Inverse S.Transform)).Origin (Point 0 0 0))
      (Sub (Transform R (Inverse S.Transform)).Origin (Point 0 0 0)) - 1

/-- The discriminant b squared minus 4ac of the ray-sphere quadratic (spec
section 4.4). -/
def Discriminant (S : sphere) (R : ray) : ℝ :=
  QuadraticB S R ^ 2 - 4 * QuadraticA S R * QuadraticC S R

/-- The camera of the renderer consistency test: an 11 by 11 pixel grid
with a right-angle field of view, positioned at (0, 0, -5) and looking at
the origin with the canonical up vector (spec section 8). -/
def DefaultViewCamera : camera :=
  { Camera 11 11 (Real.pi / 2) with
    Transform := ViewTransform (Point 0 0 (-5)) (Point 0 0 0) (Vector 0 1 0) }

/-- A 4x4 matrix with an all-zero fourth row; spec section 8 notes such a
matrix has determinant zero and is reported non-invertible. -/
def MSingular : matrix :=
  ⟨⟨1, 0, 0, 0⟩, ⟨0, 1, 0, 0⟩, ⟨0, 0, 1, 0⟩, ⟨0, 0, 0, 0⟩⟩

/-- The diagonal matrix with entries 1000, 1, 1, 1; its determinant 1000
clears the epsilon invertibility guard, while its inverse has determinant
one thousandth, inside epsilon of zero. -/
def MThousand : matrix :=
  ⟨⟨1000, 0, 0, 0⟩, ⟨0, 1, 0, 0⟩, ⟨0, 0, 1, 0⟩, ⟨0, 0, 0, 1⟩⟩

end ww

namespace ww

/-! Helper lemmas shared by the claim theorems. -/

/-- Exact equality implies epsilon equality of scalars. -/
theorem Equal_of_eq {A B : ℝ} (h : A = B) : Equal A B := by
  rw [Equal, h, sub_self, abs_zero]
  norm_num [EPSILON]

/-- Exact equality implies epsilon equality of tuples. -/
theorem EqualT_of_eq {A B : tup} (h : A = B) : EqualT A B :=
  ⟨Equal_of_eq (by rw [h]), Equal_of_eq (by rw [h]), Equal_of_eq (by rw [h]),
   Equal_of_eq (by rw [h])⟩

/-- Exact equality implies epsilon equality of matrices. -/
theorem EqualM_of_eq {A B : matrix} (h : A = B) : EqualM A B :=
  ⟨EqualT_of_eq (by rw [h]), EqualT_of_eq (by rw [h]), EqualT_of_eq (by rw [h]),
   EqualT_of_eq (by rw [h])⟩

/-- The determinant of the identity is one. -/
theorem det_I : Determinant44 I = 1 := by
  norm_num [Determinant44, Cofactor44, Minor44, SubMatrix, tupDrop, Determinant33,
    Cofactor33, Minor33, SubMatrix33, tup3Drop, Determinant22, I]

/-- The identity passes the invertibility guard. -/
theorem not_Equal_det_I : ¬ Equal (Determinant44 I) 0 := by
  rw [det_I, Equal]
  norm_num [EPSILON]

/-- The inverse of the identity is the identity. -/
theorem Inverse_I : Inverse I = I := by
  rw [Inverse, if_neg not_Equal_det_I, det_I]
  ext <;> norm_num [Cofactor44, Minor44, SubMatrix, tupDrop, Determinant33,
    Cofactor33, Minor33, SubMatrix33, tup3Drop, Determinant22, I]

/-- The identity fixes every tuple under the matrix-vector product. -/
theorem MulMT_I (T : tup) : MulMT I T = T := by
  ext <;> (simp only [MulMT, Dot, I]; ring)

/-- The identity fixes every ray under the ray transform. -/
theorem Transform_I (R : ray) : Transform R I = R := by
  rw [Transform, MulMT_I, MulMT_I]

/-- The square root of one hundred is ten. -/
theorem sqrt_hundred : Real.sqrt 100 = 10 := by
  rw [show (100 : ℝ) = 10 ^ 2 by norm_num]
  exact Real.sqrt_sq (by norm_num)

/-- The square root of four is two. -/
theorem sqrt_four : Real.sqrt 4 = 2 := by
  rw [show (4 : ℝ) = 2 ^ 2 by norm_num]
  exact Real.sqrt_sq (by norm_num)

/-- Lighting at the shared Phong test configuration, unshadowed: ambient,
diffuse and specular each reach their full scale, summing to 1.9 per
channel. -/
theorem lighting_default_unshadowed :
    Lighting {} (PointLight (Point 0 0 (-10)) (Color 1 1 1)) (Point 0 0 0)
      (Vector 0 0 (-1)) (Vector 0 0 (-1)) false = Color 1.9 1.9 1.9 := by
  have hnorm : Normalize (Sub (Point 0 0 (-10)) (Point 0 0 0)) = ⟨0, 0, -1, 0⟩ := by
    have hsub : Sub (Point 0 0 (-10)) (Point 0 0 0) = ⟨0, 0, -10, 0⟩ := by
      norm_num [Sub, Point]
    have hmag : Mag ⟨0, 0, -10, 0⟩ = 10 := by
      rw [Mag, MagSquared]
      norm_num [Dot, sqrt_hundred]
    rw [hsub]
    norm_num [Normalize, hmag]
  simp only [Lighting, PointLight]
  rw [hnorm]
  norm_num [Point, Vector, Color, MulT, MulS, Add, Sub, Negate, Dot, Reflect,
    Real.one_rpow, tup.mk.injEq]

/-- Lighting at the shared Phong test configuration, shadowed: the ambient
term alone, 0.1 per channel. -/
theorem lighting_default_shadowed :
    Lighting {} (PointLight (Point 0 0 (-10)) (Color 1 1 1)) (Point 0 0 0)
      (Vector 0 0 (-1)) (Vector 0 0 (-1)) true = Color 0.1 0.1 0.1 := by
  norm_num [Lighting, PointLight, Point, Vector, Color, MulT, MulS, tup.mk.injEq]

/-- C1: the claim says Inverse must produce a distinguishable failure signal
on a matrix whose determinant is within epsilon of zero and never silently
return a degenerate all-zero matrix. The code does the opposite: on the
singular example the determinant is zero, IsInvertible reports
non-invertible, and Inverse silently returns the all-zero Matrix44 sentinel,
exactly as the header doc comment (Zero matrix otherwise) documents. -/
theorem C1_inverse_singular_returns_zero_matrix :
    Determinant44 MSingular = 0 ∧
    ¬ (IsInvertible MSingular).IsInvertible ∧
    Inverse MSingular = Matrix44 := by
  have hdet : Determinant44 MSingular = 0 := by
    norm_num [Determinant44, Cofactor44, Minor44, SubMatrix, tupDrop, Determinant33,
      Cofactor33, Minor33, SubMatrix33, tup3Drop, Determinant22, MSingular]
  have heq : Equal (Determinant44 MSingular) 0 := by
    rw [hdet]
    exact Equal_of_eq rfl
  exact ⟨hdet, fun h => h heq, by rw [Inverse, if_pos heq]⟩

/-- C6: the claim says Normalize on a zero-length vector fails explicitly
with a signalled result state. The code has no failure channel: Normalize
returns a plain tuple, dividing componentwise by the zero magnitude (NaN
components in single precision; the junk value zero in the real-number
idealization), so the caller receives an ordinary degenerate tuple and no
signal. -/
theorem C6_normalize_zero_vector_unsignalled :
    Mag (Vector 0 0 0) = 0 ∧ Normalize (Vector 0 0 0) = Vector 0 0 0 := by
  have hm : Mag (Vector 0 0 0) = 0 := by
    norm_num [Mag, MagSquared, Dot, Vector]
  exact ⟨hm, by norm_num [Normalize, hm, Vector, tup.mk.injEq]⟩

/-- C9: a default-constructed material has Ambient 0.1, Diffuse 0.9,
Specular 0.9, Shininess 200 and base color (1, 1, 1); under these defaults
the Lighting test configuration returns 1.9 per channel unshadowed and the
ambient-only 0.1 per channel shadowed. -/
theorem C9_material_defaults :
    ({} : material).Ambient = 0.1 ∧ ({} : material).Diffuse = 0.9 ∧
    ({} : material).Specular = 0.9 ∧ ({} : material).Shininess = 200 ∧
    ({} : material).Color = Color 1 1 1 ∧
    Lighting {} (PointLight (Point 0 0 (-10)) (Color 1 1 1)) (Point 0 0 0)
      (Vector 0 0 (-1)) (Vector 0 0 (-1)) false = Color 1.9 1.9 1.9 ∧
    Lighting {} (PointLight (Point 0 0 (-10)) (Color 1 1 1)) (Point 0 0 0)
      (Vector 0 0 (-1)) (Vector 0 0 (-1)) true = Color 0.1 0.1 0.1 :=
  ⟨rfl, rfl, rfl, rfl, rfl, lighting_default_unshadowed, lighting_default_shadowed⟩

/-- C10: Count returns only the number of shapes in the object collection;
adding a light leaves Count unchanged while adding an object increases it by
exactly one. -/
theorem C10_world_count (W : world) (pObject : sphere) (pLight : light) :
    W.Count = W.vPtrObjects.length ∧
    (WorldAddLight W pLight).Count = W.Count ∧
    (WorldAddObject W pObject).Count = W.Count + 1 := by
  refine ⟨rfl, rfl, ?_⟩
  simp [world.Count, WorldAddObject]

/-- C2: Camera derives halfView as the tangent of half the field of view
taken in radians, splits half width and half height on the aspect ratio, and
sets the pixel size to the full width over the horizontal count; at
Camera(200, 125, pi over 2) the pixel size is 0.01 within epsilon. -/
theorem C2_camera :
    (∀ (HSize VSize : ℕ) (FieldOfView : ℝ),
      (Camera HSize VSize FieldOfView).HalfWidth =
        (if 1 ≤ (HSize : ℝ) / (VSize : ℝ) then Real.tan (FieldOfView / 2)
          else Real.tan (FieldOfView / 2) * ((HSize : ℝ) / (VSize : ℝ))) ∧
      (Camera HSize VSize FieldOfView).HalfHeight =
        (if 1 ≤ (HSize : ℝ) / (VSize : ℝ)
          then Real.tan (FieldOfView / 2) / ((HSize : ℝ) / (VSize : ℝ))
          else Real.tan (FieldOfView / 2)) ∧
      (Camera HSize VSize FieldOfView).PixelSize =
        (Camera HSize VSize FieldOfView).HalfWidth * 2 / (HSize : ℝ)) ∧
    Equal (Camera 200 125 (Real.pi / 2)).PixelSize 0.01 := by
  refine ⟨fun H V F => ⟨rfl, rfl, rfl⟩, ?_⟩
  have htan : Real.tan (Real.pi / 2 / 2) = 1 := by
    rw [show Real.pi / 2 / 2 = Real.pi / 4 by ring]
    exact Real.tan_pi_div_four
  have hps : (Camera 200 125 (Real.pi / 2)).PixelSize = 0.01 := by
    norm_num [Camera, htan]
  rw [hps]
  exact Equal_of_eq rfl

/-- The scan behind Hit never discards an accumulator: a some accumulator
can only be replaced, not dropped. -/
theorem hit_foldl_none (xs : List intersection) :
    ∀ Acc : Option intersection,
      xs.foldl HitStep Acc = none ↔ (Acc = none ∧ ∀ j ∈ xs, j.t < 0) := by
  induction xs with
  | nil => intro Acc; simp
  | cons x xs ih =>
    intro Acc
    rw [List.foldl_cons, ih]
    cases Acc with
    | none =>
      by_cases hx : 0 ≤ x.t
      · simp [HitStep, hx, not_lt.mpr hx]
      · simp [HitStep, hx, not_le.mp hx]
    | some B =>
      by_cases hx : 0 ≤ x.t
      · by_cases hlt : x.t < B.t <;> simp [HitStep, hx, hlt]
      · simp [HitStep, hx]

/-- The scan behind Hit, run from an arbitrary accumulator: the result is
either the untouched accumulator, already at most every nonnegative t of the
list, or an element of the list with nonnegative t that strictly beats the
accumulator and every earlier nonnegative element and is at most every later
nonnegative element. -/
theorem hit_foldl_some (xs : List intersection) :
    ∀ (Acc : Option intersection) (r : intersection),
      xs.foldl HitStep Acc = some r →
        (Acc = some r ∧ ∀ j ∈ xs, 0 ≤ j.t → r.t ≤ j.t) ∨
        (∃ l₁ l₂, xs = l₁ ++ r :: l₂ ∧ 0 ≤ r.t ∧
          (∀ B, Acc = some B → r.t < B.t) ∧
          (∀ j ∈ l₁, 0 ≤ j.t → r.t < j.t) ∧
          (∀ j ∈ l₂, 0 ≤ j.t → r.t ≤ j.t)) := by
  induction xs with
  | nil =>
    intro Acc r h
    exact Or.inl ⟨h, by simp⟩
  | cons x xs ih =>
    intro Acc r h
    rw [List.foldl_cons] at h
    rcases ih (HitStep Acc x) r h with ⟨h1, h2⟩ | ⟨l₁, l₂, hxs, hr, hacc, hl₁, hl₂⟩
    · cases Acc with
      | none =>
        by_cases hx : 0 ≤ x.t
        · have hrx : x = r := by simpa [HitStep, hx] using h1
          refine Or.inr ⟨[], xs, by simp [hrx], hrx ▸ hx, by simp, by simp, ?_⟩
          intro j hj hjt
          exact h2 j hj hjt
        · exfalso
          simp [HitStep, hx] at h1
      | some B =>
        by_cases hx : 0 ≤ x.t
        · by_cases hlt : x.t < B.t
          · have hrx : x = r := by simpa [HitStep, hx, hlt] using h1
            refine Or.inr ⟨[], xs, by simp [hrx], hrx ▸ hx, ?_, by simp, ?_⟩
            · intro C hC
              cases Option.some.inj hC
              rw [← hrx]
              exact hlt
            · intro j hj hjt
              exact h2 j hj hjt
          · have hrB : B = r := by simpa [HitStep, hx, hlt] using h1
            refine Or.inl ⟨by rw [hrB], ?_⟩
            intro j hj hjt
            rcases List.mem_cons.mp hj with rfl | hj'
            · rw [← hrB]
              exact not_lt.mp hlt
            · exact h2 j hj' hjt
        · have hrB : B = r := by simpa [HitStep, hx] using h1
          refine Or.inl ⟨by rw [hrB], ?_⟩
          intro j hj hjt
          rcases List.mem_cons.mp hj with rfl | hj'
          · exact absurd hjt hx
          · exact h2 j hj' hjt
    · refine Or.inr ⟨x :: l₁, l₂, by simp [hxs], hr, ?_, ?_, hl₂⟩
      · intro B hB
        subst hB
        by_cases hx : 0 ≤ x.t
        · by_cases hlt : x.t < B.t
          · have hrx := hacc x (by simp [HitStep, hx, hlt])
            exact hrx.trans hlt
          · exact hacc B (by simp [HitStep, hx, hlt])
        · exact hacc B (by simp [HitStep, hx])
      · intro j hj hjt
        rcases List.mem_cons.mp hj with rfl | hj'
        · cases Acc with
          | none => exact hacc j (by simp [HitStep, hjt])
          | some B =>
            by_cases hlt : j.t < B.t
            · exact hacc j (by simp [HitStep, hjt, hlt])
            · have hrB := hacc B (by simp [HitStep, hjt, hlt])
              exact hrB.trans_le (not_lt.mp hlt)
        · exact hl₁ j hj' hjt

/-- C3: Hit returns the intersection with the smallest nonnegative t, ties
broken by first occurrence in input order (everything before the result is
negative or strictly larger), and the distinguished no-hit result exactly
when the collection is empty or every t is negative; over t values 5, 7,
-3, 2 it returns the one with t = 2, and over -1, -2 it returns no hit. -/
theorem C3_hit :
    (∀ Intersections : List intersection,
      (Hit Intersections = none ↔ ∀ j ∈ Intersections, j.t < 0) ∧
      (∀ r, Hit Intersections = some r →
        0 ≤ r.t ∧ (∀ j ∈ Intersections, 0 ≤ j.t → r.t ≤ j.t) ∧
        ∃ l₁ l₂, Intersections = l₁ ++ r :: l₂ ∧ ∀ j ∈ l₁, 0 ≤ j.t → r.t < j.t)) ∧
    Hit [Intersection 5 PtrDefaultSphere, Intersection 7 PtrDefaultSphere,
        Intersection (-3) PtrDefaultSphere, Intersection 2 PtrDefaultSphere] =
      some (Intersection 2 PtrDefaultSphere) ∧
    Hit [Intersection (-1) PtrDefaultSphere, Intersection (-2) PtrDefaultSphere] = none := by
  refine ⟨?_, ?_, ?_⟩
  · intro xs
    constructor
    · rw [Hit, hit_foldl_none]
      simp
    · intro r hr
      rcases hit_foldl_some xs none r hr with ⟨h1, _⟩ | ⟨l₁, l₂, hxs, h0, _, hl₁, hl₂⟩
      · exact absurd h1 (by simp)
      · refine ⟨h0, ?_, l₁, l₂, hxs, hl₁⟩
        intro j hj hjt
        rw [hxs] at hj
        rcases List.mem_append.mp hj with hj1 | hj2
        · exact (hl₁ j hj1 hjt).le
        · rcases List.mem_cons.mp hj2 with rfl | hj3
          · exact le_refl _
          · exact hl₂ j hj3 hjt
  · norm_num [Hit, HitStep, Intersection]
  · norm_num [Hit, HitStep, Intersection]

/-- Witness for C3 at the singleton collection with t = 2. -/
theorem C3_hit_witness :
    0 ≤ (Intersection 2 PtrDefaultSphere).t ∧
    (∀ j ∈ [Intersection 2 PtrDefaultSphere], 0 ≤ j.t →
      (Intersection 2 PtrDefaultSphere).t ≤ j.t) ∧
    ∃ l₁ l₂, [Intersection 2 PtrDefaultSphere] =
        l₁ ++ Intersection 2 PtrDefaultSphere :: l₂ ∧
      ∀ j ∈ l₁, 0 ≤ j.t → (Intersection 2 PtrDefaultSphere).t < j.t :=
  (C3_hit.1 [Intersection 2 PtrDefaultSphere]).2 (Intersection 2 PtrDefaultSphere)
    (by norm_num [Hit, HitStep, Intersection])

/-- The dot product of a tuple with itself is nonnegative. -/
theorem dot_self_nonneg (T : tup) : 0 ≤ Dot T T := by
  have h1 := mul_self_nonneg T.X
  have h2 := mul_self_nonneg T.Y
  have h3 := mul_self_nonneg T.Z
  have h4 := mul_self_nonneg T.W
  rw [Dot]
  linarith

/-- Intersect written through the named quadratic quantities; definitional. -/
theorem Intersect_eq (S : sphere) (R : ray) :
    Intersect S R =
      if Discriminant S R < 0 then []
      else
        [Intersection ((-QuadraticB S R - Real.sqrt (Discriminant S R)) / (2 * QuadraticA S R)) S,
         Intersection ((-QuadraticB S R + Real.sqrt (Discriminant S R)) / (2 * QuadraticA S R)) S] :=
  rfl

/-- C4: Intersect takes the ray through the inverse transform and solves the
unit-sphere quadratic: a negative discriminant yields zero intersections,
otherwise exactly the two roots in nondecreasing order, tagged with the
shape, even when negative or equal; the canonical outside ray meets the unit
sphere at t = 4 and 6, and the inside ray at t = -1 and 1. -/
theorem C4_intersect :
    (∀ (S : sphere) (R : ray),
      (Discriminant S R < 0 ∧ Intersect S R = []) ∨
      (0 ≤ Discriminant S R ∧
        Intersect S R =
          [Intersection ((-QuadraticB S R - Real.sqrt (Discriminant S R)) / (2 * QuadraticA S R)) S,
           Intersection ((-QuadraticB S R + Real.sqrt (Discriminant S R)) / (2 * QuadraticA S R)) S] ∧
        (-QuadraticB S R - Real.sqrt (Discriminant S R)) / (2 * QuadraticA S R) ≤
          (-QuadraticB S R + Real.sqrt (Discriminant S R)) / (2 * QuadraticA S R))) ∧
    Intersect PtrDefaultSphere (Ray (Point 0 0 (-5)) (Vector 0 0 1)) =
      [Intersection 4 PtrDefaultSphere, Intersection 6 PtrDefaultSphere] ∧
    Intersect PtrDefaultSphere (Ray (Point 0 0 0) (Vector 0 0 1)) =
      [Intersection (-1) PtrDefaultSphere, Intersection 1 PtrDefaultSphere] := by
  refine ⟨?_, ?_, ?_⟩
  · intro S R
    by_cases h : Discriminant S R < 0
    · exact Or.inl ⟨h, by rw [Intersect_eq, if_pos h]⟩
    · refine Or.inr ⟨not_lt.mp h, by rw [Intersect_eq, if_neg h], ?_⟩
      have hs : 0 ≤ Real.sqrt (Discriminant S R) := Real.sqrt_nonneg _
      have hA : 0 ≤ QuadraticA S R := dot_self_nonneg _
      rcases eq_or_lt_of_le hA with hA0 | hApos
      · rw [← hA0]
        norm_num
      · have h2 : 0 < 2 * QuadraticA S R := by linarith
        have hab : -QuadraticB S R - Real.sqrt (Discriminant S R) ≤
            -QuadraticB S R + Real.sqrt (Discriminant S R) := by linarith
        exact (div_le_div_iff_of_pos_right h2).mpr hab
  · have hloc : Transform (Ray (Point 0 0 (-5)) (Vector 0 0 1)) (Inverse PtrDefaultSphere.Transform) = Ray (Point 0 0 (-5)) (Vector 0 0 1) := by
      rw [show PtrDefaultSphere.Transform = I from rfl, Inverse_I, Transform_I]
    have hd : Discriminant PtrDefaultSphere (Ray (Point 0 0 (-5)) (Vector 0 0 1)) = 4 := by
      rw [Discriminant, QuadraticA, QuadraticB, QuadraticC, hloc]
      norm_num [Dot, Sub, Point, Vector, Ray]
    have hA : QuadraticA PtrDefaultSphere (Ray (Point 0 0 (-5)) (Vector 0 0 1)) = 1 := by
      rw [QuadraticA, hloc]
      norm_num [Dot, Vector, Ray]
    have hB : QuadraticB PtrDefaultSphere (Ray (Point 0 0 (-5)) (Vector 0 0 1)) = -10 := by
      rw [QuadraticB, hloc]
      norm_num [Dot, Sub, Point, Vector, Ray]
    rw [Intersect_eq, if_neg (by rw [hd]; norm_num), hd, hA, hB, sqrt_four]
    norm_num [Intersection]
  · have hloc : Transform (Ray (Point 0 0 0) (Vector 0 0 1)) (Inverse PtrDefaultSphere.Transform) = Ray (Point 0 0 0) (Vector 0 0 1) := by
      rw [show PtrDefaultSphere.Transform = I from rfl, Inverse_I, Transform_I]
    have hd : Discriminant PtrDefaultSphere (Ray (Point 0 0 0) (Vector 0 0 1)) = 4 := by
      rw [Discriminant, QuadraticA, QuadraticB, QuadraticC, hloc]
      norm_num [Dot, Sub, Point, Vector, Ray]
    have hA : QuadraticA PtrDefaultSphere (Ray (Point 0 0 0) (Vector 0 0 1)) = 1 := by
      rw [QuadraticA, hloc]
      norm_num [Dot, Vector, Ray]
    have hB : QuadraticB PtrDefaultSphere (Ray (Point 0 0 0) (Vector 0 0 1)) = 0 := by
      rw [QuadraticB, hloc]
      norm_num [Dot, Sub, Point, Vector, Ray]
    rw [Intersect_eq, if_neg (by rw [hd]; norm_num), hd, hA, hB, sqrt_four]
    norm_num [Intersection]

/-- C5: with material defaults, a white light at (0, 0, -10), position at
the origin, eye and normal both (0, 0, -1), Lighting returns 1.9 per channel
within epsilon when not in shadow, and the ambient-only 0.1 per channel when
in shadow. -/
theorem C5_lighting :
    EqualT
      (Lighting {} (PointLight (Point 0 0 (-10)) (Color 1 1 1)) (Point 0 0 0)
        (Vector 0 0 (-1)) (Vector 0 0 (-1)) false)
      (Color 1.9 1.9 1.9) ∧
    Lighting {} (PointLight (Point 0 0 (-10)) (Color 1 1 1)) (Point 0 0 0)
      (Vector 0 0 (-1)) (Vector 0 0 (-1)) true = Color 0.1 0.1 0.1 :=
  ⟨EqualT_of_eq lighting_default_unshadowed, lighting_default_shadowed⟩

/-- Multiplying by the identity on the left changes nothing. -/
theorem mulM_I_left (M : matrix) : MulM I M = M := by
  ext <;> (simp only [MulM, MulRow, I]; ring)

/-- Multiplying by the identity on the right changes nothing. -/
theorem mulM_I_right (M : matrix) : MulM M I = M := by
  ext <;> (simp only [MulM, MulRow, I]; ring)

/-- The 4x4 matrix product is associative. -/
theorem mulM_assoc (A B C : matrix) : MulM (MulM A B) C = MulM A (MulM B C) := by
  ext <;> (simp only [MulM, MulRow]; ring)

set_option maxHeartbeats 1600000 in
/-- The adjugate identity for the cofactor-expansion inverse: when the
determinant clears the epsilon guard, the product of a matrix with its
inverse is exactly the identity. The sixteen row sums of entries against
cofactors — the Laplace expansion of the determinant along each row, and
the alien expansions, which vanish — are established inline and divided by
the determinant. -/
theorem mulM_inverse (M : matrix) (h : ¬ Equal (Determinant44 M) 0) :
    MulM M (Inverse M) = I := by
  have hd : Determinant44 M ≠ 0 := fun h0 => h (Equal_of_eq h0)
  have c00 : M.R0.X * Cofactor44 M 0 0 + M.R0.Y * Cofactor44 M 0 1 + M.R0.Z * Cofactor44 M 0 2 + M.R0.W * Cofactor44 M 0 3 = Determinant44 M := by
    simp only [Determinant44, Cofactor44, Minor44, SubMatrix, tupDrop, Determinant33,
      Cofactor33, Minor33, SubMatrix33, tup3Drop, Determinant22]
    try norm_num
    try ring
  have c01 : M.R0.X * Cofactor44 M 1 0 + M.R0.Y * Cofactor44 M 1 1 + M.R0.Z * Cofactor44 M 1 2 + M.R0.W * Cofactor44 M 1 3 = 0 := by
    simp only [Determinant44, Cofactor44, Minor44, SubMatrix, tupDrop, Determinant33,
      Cofactor33, Minor33, SubMatrix33, tup3Drop, Determinant22]
    try norm_num
    try ring
  have c02 : M.R0.X * Cofactor44 M 2 0 + M.R0.Y * Cofactor44 M 2 1 + M.R0.Z * Cofactor44 M 2 2 + M.R0.W * Cofactor44 M 2 3 = 0 := by
    simp only [Determinant44, Cofactor44, Minor44, SubMatrix, tupDrop, Determinant33,
      Cofactor33, Minor33, SubMatrix33, tup3Drop, Determinant22]
    try norm_num
    try ring
  have c03 : M.R0.X * Cofactor44 M 3 0 + M.R0.Y * Cofactor44 M 3 1 + M.R0.Z * Cofactor44 M 3 2 + M.R0.W * Cofactor44 M 3 3 = 0 := by
    simp only [Determinant44, Cofactor44, Minor44, SubMatrix, tupDrop, Determinant33,
      Cofactor33, Minor33, SubMatrix33, tup3Drop, Determinant22]
    try norm_num
    try ring
  have c10 : M.R1.X * Cofactor44 M 0 0 + M.R1.Y * Cofactor44 M 0 1 + M.R1.Z * Cofactor44 M 0 2 + M.R1.W * Cofactor44 M 0 3 = 0 := by
    simp only [Determinant44, Cofactor44, Minor44, SubMatrix, tupDrop, Determinant33,
      Cofactor33, Minor33, SubMatrix33, tup3Drop, Determinant22]
    try norm_num
    try ring
  have c11 : M.R1.X * Cofactor44 M 1 0 + M.R1.Y * Cofactor44 M 1 1 + M.R1.Z * Cofactor44 M 1 2 + M.R1.W * Cofactor44 M 1 3 = Determinant44 M := by
    simp only [Determinant44, Cofactor44, Minor44, SubMatrix, tupDrop, Determinant33,
      Cofactor33, Minor33, SubMatrix33, tup3Drop, Determinant22]
    try norm_num
    try ring
  have c12 : M.R1.X * Cofactor44 M 2 0 + M.R1.Y * Cofactor44 M 2 1 + M.R1.Z * Cofactor44 M 2 2 + M.R1.W * Cofactor44 M 2 3 = 0 := by
    simp only [Determinant44, Cofactor44, Minor44, SubMatrix, tupDrop, Determinant33,
      Cofactor33, Minor33, SubMatrix33, tup3Drop, Determinant22]
    try norm_num
    try ring
  have c13 : M.R1.X * Cofactor44 M 3 0 + M.R1.Y * Cofactor44 M 3 1 + M.R1.Z * Cofactor44 M 3 2 + M.R1.W * Cofactor44 M 3 3 = 0 := by
    simp only [Determinant44, Cofactor44, Minor44, SubMatrix, tupDrop, Determinant33,
      Cofactor33, Minor33, SubMatrix33, tup3Drop, Determinant22]
    try norm_num
    try ring
  have c20 : M.R2.X * Cofactor44 M 0 0 + M.R2.Y * Cofactor44 M 0 1 + M.R2.Z * Cofactor44 M 0 2 + M.R2.W * Cofactor44 M 0 3 = 0 := by
    simp only [Determinant44, Cofactor44, Minor44, SubMatrix, tupDrop, Determinant33,
      Cofactor33, Minor33, SubMatrix33, tup3Drop, Determinant22]
    try norm_num
    try ring
  have c21 : M.R2.X * Cofactor44 M 1 0 + M.R2.Y * Cofactor44 M 1 1 + M.R2.Z * Cofactor44 M 1 2 + M.R2.W * Cofactor44 M 1 3 = 0 := by
    simp only [Determinant44, Cofactor44, Minor44, SubMatrix, tupDrop, Determinant33,
      Cofactor33, Minor33, SubMatrix33, tup3Drop, Determinant22]
    try norm_num
    try ring
  have c22 : M.R2.X * Cofactor44 M 2 0 + M.R2.Y * Cofactor44 M 2 1 + M.R2.Z * Cofactor44 M 2 2 + M.R2.W * Cofactor44 M 2 3 = Determinant44 M := by
    simp only [Determinant44, Cofactor44, Minor44, SubMatrix, tupDrop, Determinant33,
      Cofactor33, Minor33, SubMatrix33, tup3Drop, Determinant22]
    try norm_num
    try ring
  have c23 : M.R2.X * Cofactor44 M 3 0 + M.R2.Y * Cofactor44 M 3 1 + M.R2.Z * Cofactor44 M 3 2 + M.R2.W * Cofactor44 M 3 3 = 0 := by
    simp only [Determinant44, Cofactor44, Minor44, SubMatrix, tupDrop, Determinant33,
      Cofactor33, Minor33, SubMatrix33, tup3Drop, Determinant22]
    try norm_num
    try ring
  have c30 : M.R3.X * Cofactor44 M 0 0 + M.R3.Y * Cofactor44 M 0 1 + M.R3.Z * Cofactor44 M 0 2 + M.R3.W * Cofactor44 M 0 3 = 0 := by
    simp only [Determinant44, Cofactor44, Minor44, SubMatrix, tupDrop, Determinant33,
      Cofactor33, Minor33, SubMatrix33, tup3Drop, Determinant22]
    try norm_num
    try ring
  have c31 : M.R3.X * Cofactor44 M 1 0 + M.R3.Y * Cofactor44 M 1 1 + M.R3.Z * Cofactor44 M 1 2 + M.R3.W * Cofactor44 M 1 3 = 0 := by
    simp only [Determinant44, Cofactor44, Minor44, SubMatrix, tupDrop, Determinant33,
      Cofactor33, Minor33, SubMatrix33, tup3Drop, Determinant22]
    try norm_num
    try ring
  have c32 : M.R3.X * Cofactor44 M 2 0 + M.R3.Y * Cofactor44 M 2 1 + M.R3.Z * Cofactor44 M 2 2 + M.R3.W * Cofactor44 M 2 3 = 0 := by
    simp only [Determinant44, Cofactor44, Minor44, SubMatrix, tupDrop, Determinant33,
      Cofactor33, Minor33, SubMatrix33, tup3Drop, Determinant22]
    try norm_num
    try ring
  have c33 : M.R3.X * Cofactor44 M 3 0 + M.R3.Y * Cofactor44 M 3 1 + M.R3.Z * Cofactor44 M 3 2 + M.R3.W * Cofactor44 M 3 3 = Determinant44 M := by
    simp only [Determinant44, Cofactor44, Minor44, SubMatrix, tupDrop, Determinant33,
      Cofactor33, Minor33, SubMatrix33, tup3Drop, Determinant22]
    try norm_num
    try ring
  rw [Inverse, if_neg h]
  ext <;> simp only [MulM, MulRow, I, ← mul_div_assoc, div_add_div_same]
  · rw [c00]
    exact div_self hd
  · rw [c01]
    exact zero_div _
  · rw [c02]
    exact zero_div _
  · rw [c03]
    exact zero_div _
  · rw [c10]
    exact zero_div _
  · rw [c11]
    exact div_self hd
  · rw [c12]
    exact zero_div _
  · rw [c13]
    exact zero_div _
  · rw [c20]
    exact zero_div _
  · rw [c21]
    exact zero_div _
  · rw [c22]
    exact div_self hd
  · rw [c23]
    exact zero_div _
  · rw [c30]
    exact zero_div _
  · rw [c31]
    exact zero_div _
  · rw [c32]
    exact zero_div _
  · rw [c33]
    exact div_self hd

/-- C7 (amended): for every 4x4 matrix whose determinant is not within
epsilon of zero, the product with its inverse equals the identity within
epsilon; and the inverse of the inverse equals the original within epsilon
provided the determinant of the inverse also clears the epsilon guard — a
proviso the original claim lacks and which the counterexample shows is
necessary. -/
theorem C7_inverse_props (M : matrix) (h : ¬ Equal (Determinant44 M) 0) :
    EqualM (MulM M (Inverse M)) I ∧
    (¬ Equal (Determinant44 (Inverse M)) 0 → EqualM (Inverse (Inverse M)) M) := by
  refine ⟨EqualM_of_eq (mulM_inverse M h), ?_⟩
  intro h2
  have e1 : MulM M (Inverse M) = I := mulM_inverse M h
  have e2 : MulM (Inverse M) (Inverse (Inverse M)) = I := mulM_inverse (Inverse M) h2
  have e3 : Inverse (Inverse M) = M := by
    calc Inverse (Inverse M) = MulM I (Inverse (Inverse M)) := (mulM_I_left _).symm
    _ = MulM (MulM M (Inverse M)) (Inverse (Inverse M)) := by rw [e1]
    _ = MulM M (MulM (Inverse M) (Inverse (Inverse M))) := mulM_assoc M (Inverse M) _
    _ = MulM M I := by rw [e2]
    _ = M := mulM_I_right M
  exact EqualM_of_eq e3

/-- Witness for C7 at the identity matrix. -/
theorem C7_inverse_props_witness :
    EqualM (MulM I (Inverse I)) I ∧ EqualM (Inverse (Inverse I)) I :=
  ⟨(C7_inverse_props I not_Equal_det_I).1,
   (C7_inverse_props I not_Equal_det_I).2 (by rw [Inverse_I]; exact not_Equal_det_I)⟩

/-- Counterexample for C7 as stated: the diagonal matrix with entries 1000,
1, 1, 1 has determinant 1000, well clear of epsilon, yet the inverse of its
inverse is the all-zero sentinel, nowhere near the original, because the
inverse has determinant one thousandth, within epsilon of zero. -/
theorem C7_counterexample :
    ¬ Equal (Determinant44 MThousand) 0 ∧
    ¬ EqualM (Inverse (Inverse MThousand)) MThousand := by
  have hdet : Determinant44 MThousand = 1000 := by
    rw [Determinant44]
    norm_num [Cofactor44, Minor44, SubMatrix, tupDrop, Determinant33,
      Cofactor33, Minor33, SubMatrix33, tup3Drop, Determinant22, MThousand]
  have hguard : ¬ Equal (Determinant44 MThousand) 0 := by
    rw [hdet, Equal]
    norm_num [EPSILON]
  have hinv : Inverse MThousand =
      ⟨⟨1 / 1000, 0, 0, 0⟩, ⟨0, 1, 0, 0⟩, ⟨0, 0, 1, 0⟩, ⟨0, 0, 0, 1⟩⟩ := by
    rw [Inverse, if_neg hguard, hdet]
    ext <;> norm_num [Cofactor44, Minor44, SubMatrix, tupDrop, Determinant33,
      Cofactor33, Minor33, SubMatrix33, tup3Drop, Determinant22, MThousand]
  have hdet2 : Determinant44 (Inverse MThousand) = 1 / 1000 := by
    rw [hinv, Determinant44]
    norm_num [Cofactor44, Minor44, SubMatrix, tupDrop, Determinant33,
      Cofactor33, Minor33, SubMatrix33, tup3Drop, Determinant22]
  have hguard2 : Equal (Determinant44 (Inverse MThousand)) 0 := by
    rw [hdet2, Equal, sub_zero, abs_of_pos (by norm_num : (0 : ℝ) < 1 / 1000)]
    norm_num [EPSILON]
  have hzero : Inverse (Inverse MThousand) = Matrix44 := by
    rw [Inverse, if_pos hguard2]
  refine ⟨hguard, ?_⟩
  rw [hzero]
  intro hE
  have h1 := hE.1.1
  norm_num [Matrix44, MThousand, Equal, EPSILON] at h1

/-- C8: the color Render writes at pixel (Px, Py) of the hsize by vsize
buffer equals ColorAt of the world and RayForPixel at that pixel, computed
independently; in particular, rendering the default two-sphere one-light
world with the camera at (0, 0, -5) looking at the origin yields at the
center pixel exactly the direct per-ray ColorAt evaluation. -/
theorem C8_render :
    (∀ (C : camera) (W : world) (Px Py : ℕ), Px < C.HSize → Py < C.VSize →
      PixelAt (Render C W) Px Py = ColorAt W (RayForPixel C Px Py)) ∧
    PixelAt (Render DefaultViewCamera World) 5 5 =
      ColorAt World (RayForPixel DefaultViewCamera 5 5) := by
  have main : ∀ (C : camera) (W : world) (Px Py : ℕ), Px < C.HSize → Py < C.VSize →
      PixelAt (Render C W) Px Py = ColorAt W (RayForPixel C Px Py) := by
    intro C W Px Py hx hy
    have hH : 0 < C.HSize := Nat.lt_of_le_of_lt (Nat.zero_le Px) hx
    have hlt : Px + Py * C.HSize < C.VSize * C.HSize := by
      have h1 : Px + Py * C.HSize < C.HSize + Py * C.HSize := Nat.add_lt_add_right hx _
      have h2 : C.HSize + Py * C.HSize ≤ C.VSize * C.HSize := by
        calc C.HSize + Py * C.HSize = (Py + 1) * C.HSize := by ring
        _ ≤ C.VSize * C.HSize := Nat.mul_le_mul_right _ hy
      exact Nat.lt_of_lt_of_le h1 h2
    simp only [PixelAt, Render]
    rw [List.getD_eq_getElem?_getD, List.getElem?_map, List.getElem?_range hlt]
    simp only [Option.map_some', Option.getD_some]
    rw [Nat.add_mul_mod_self_right, Nat.mod_eq_of_lt hx,
      Nat.add_mul_div_right _ _ hH, Nat.div_eq_of_lt hx, Nat.zero_add]
  refine ⟨main, main DefaultViewCamera World 5 5 ?_ ?_⟩
  · norm_num [DefaultViewCamera, Camera]
  · norm_num [DefaultViewCamera, Camera]

/-- Witness for C8 at the 11 by 11 view camera and the default world. -/
theorem C8_render_witness :
    PixelAt (Render DefaultViewCamera World) 0 0 =
      ColorAt World (RayForPixel DefaultViewCamera 0 0) :=
  C8_render.1 DefaultViewCamera World 0 0 (by norm_num [DefaultViewCamera, Camera])
    (by norm_num [DefaultViewCamera, Camera])

end ww
